import Mathlib

/- Shallow embedding of the HistoryExporter class from
   src/history-export/src/exporter.ts.

   Conventions used throughout:
   * a JavaScript optional string is `Option String`; a JS truthiness test
     on such a value succeeds exactly when it is present and nonempty
     (`undefined` and `""` are both falsy);
   * a JS `Map<string,string>` / plain object used as a string map is an
     insertion-ordered association list `List (String × String)`;
   * a thrown exception is an `Except.error`; an `async` remote call is a
     parameter supplying the remote outcome, so each function is pure in
     the outcomes it is fed;
   * a cursor-following `do ... while (cursor)` loop over a remote
     collection is a recursive function over the list of responses the
     remote delivers; running off the end of that list (the remote never
     ends the pagination) is modelled as `none`. -/

/-- JS truthiness filter on an optional string: `some s` with nonempty `s`
survives; `none` and `some ""` are falsy. -/
def truthyOpt : Option String → Option String
  | some s => if s = "" then none else some s
  | none => none

/-- The JS expression `a || b` on optional strings: `b` when `a` is absent
or empty, otherwise `a`. -/
def jsOrS (a b : Option String) : Option String :=
  match truthyOpt a with
  | some s => some s
  | none => b

/-- Characters stripped by String.prototype.trim at either end. -/
def trimChars (l : List Char) : List Char :=
  ((l.dropWhile Char.isWhitespace).reverse.dropWhile Char.isWhitespace).reverse

/-- Model of JavaScript String.prototype.trim (whitespace removed from both
ends of the string). -/
def jsTrim (s : String) : String :=
  String.mk (trimChars s.data)

/-- In-memory string-to-string cache (JS Map / object), insertion ordered. -/
abbrev Cache := List (String × String)

/-- JS `Map.get` / object indexing. -/
def mapGet (m : Cache) (k : String) : Option String :=
  (m.find? (fun p => p.1 == k)).map (fun p => p.2)

/-- JS `Map.set` / object property assignment: overwrite the existing entry
in place, otherwise append a new one. -/
def mapSet (m : Cache) (k v : String) : Cache :=
  if (m.find? (fun p => p.1 == k)).isSome then
    m.map (fun p => if p.1 == k then (k, v) else p)
  else
    m ++ [(k, v)]

/- ---------------------------------------------------------------------
   Remote API data shapes (the fields exporter.ts reads).
   --------------------------------------------------------------------- -/

/-- A Slack message as read by exporter.ts: `ts`, `user`, `bot_id`,
`username`, `text`, `thread_ts`, `reply_count`.  Slack delivers
`reply_count` as a non-negative number. -/
structure SlackMessage where
  ts : Option String
  user : Option String
  bot_id : Option String
  username : Option String
  text : Option String
  thread_ts : Option String
  reply_count : Option Nat
deriving DecidableEq

/-- The aggregate built by expandThreads. -/
structure MessageWithReplies where
  message : SlackMessage
  replies : List SlackMessage
deriving DecidableEq

/-- `response_metadata` on paged responses. -/
structure ResponseMetadata where
  next_cursor : Option String
deriving DecidableEq

/-- A conversations.history / conversations.replies response envelope. -/
structure HistoryResponse where
  ok : Bool
  error : Option String
  messages : Option (List SlackMessage)
  response_metadata : Option ResponseMetadata
deriving DecidableEq

/-- A channel object inside a conversations.list response. -/
structure ChannelObj where
  id : Option String
  name : Option String
deriving DecidableEq

/-- A conversations.list response envelope. -/
structure ChannelsListResponse where
  ok : Bool
  error : Option String
  channels : Option (List ChannelObj)
  response_metadata : Option ResponseMetadata
deriving DecidableEq

/-- A Slack user profile as read by the name-selection code. -/
structure SlackProfile where
  display_name : Option String
  real_name : Option String
deriving DecidableEq

/-- A Slack user record: top-level `id` and `real_name` plus the profile. -/
structure SlackUser where
  id : Option String
  real_name : Option String
  profile : Option SlackProfile
deriving DecidableEq

/-- A users.info response envelope. -/
structure UsersInfoResponse where
  ok : Bool
  error : Option String
  user : Option SlackUser
deriving DecidableEq

/-- Outcome of an awaited users.info call: either the client resolved with
a response envelope, or it threw (`rateLimited` records whether the thrown
error carries the rate-limit code checked by isRateLimitError). -/
inductive UsersInfoOutcome where
  | success (resp : UsersInfoResponse)
  | threw (rateLimited : Bool)
deriving DecidableEq

/- ---------------------------------------------------------------------
   The cursor-following pagination loop.
   --------------------------------------------------------------------- -/

/-- One fetched page, after the call site has extracted its items:
`ok`/`error` from the envelope, the delivered items in order, and the raw
`response_metadata?.next_cursor`. -/
structure Page (α : Type) where
  ok : Bool
  error : Option String
  items : List α
  next_cursor : Option String
deriving DecidableEq

/-- The loop guard `while (cursor)` after
`cursor = response.response_metadata?.next_cursor || undefined`:
true exactly for a present, nonempty cursor. -/
def cursorTruthy : Option String → Bool
  | some s => !(s == "")
  | none => false

/-- The `do { ... } while (cursor)` pagination loop shared (textually) by
listChannels, resolveChannelId, fetchHistory, fetchThreadReplies and
prefetchUsers: check `ok` (throw with the site's message and the
envelope's `error` or the `"unknown_error"` sentinel), append the page's
items, continue while the next cursor is truthy.  Returns the accumulated
items and the number of pages consumed; `none` when the supplied response
list runs out while a cursor is still pending. -/
def paginate {α : Type} (errCtx : String) : List (Page α) → Option (Except String (List α) × Nat)
  | [] => none
  | p :: rest =>
    if p.ok then
      if cursorTruthy p.next_cursor then
        match paginate errCtx rest with
        | none => none
        | some (Except.error e, n) => some (Except.error e, n + 1)
        | some (Except.ok tail, n) => some (Except.ok (p.items ++ tail), n + 1)
      else
        some (Except.ok p.items, 1)
    else
      some (Except.error (errCtx ++ p.error.getD "unknown_error"), 1)

/-- How fetchHistory (and fetchThreadReplies) turns a response into a page:
`if (response.messages) messages.push(...response.messages)` and
`cursor = response.response_metadata?.next_cursor || undefined`. -/
def historyPage (r : HistoryResponse) : Page SlackMessage :=
  { ok := r.ok
    error := r.error
    items := r.messages.getD []
    next_cursor := r.response_metadata.bind ResponseMetadata.next_cursor }

/-- The pagination loop of fetchHistory (everything before the final
client-side sort), fed the sequence of conversations.history responses. -/
def fetchHistoryLoop (rs : List HistoryResponse) : Option (Except String (List SlackMessage) × Nat) :=
  paginate "Failed to fetch history: " (rs.map historyPage)

/- ---------------------------------------------------------------------
   Timestamp parsing and the defensive sort of fetchHistory.
   --------------------------------------------------------------------- -/

/-- A non-negative decimal value `num / den` with `den` a power of ten;
the result of parsing a Slack `ts` token.  Kept unreduced so that all
comparisons are plain Nat arithmetic. -/
structure DecTs where
  num : Nat
  den : Nat
deriving DecidableEq

/-- Strict comparison of parsed timestamps (the `tsA - tsB < 0` test of
the sort comparator). -/
def decLt (a b : DecTs) : Bool :=
  a.num * b.den < b.num * a.den

/-- Non-strict comparison of parsed timestamps. -/
def decLe (a b : DecTs) : Bool :=
  a.num * b.den ≤ b.num * a.den

/-- Numeric value of a digit list, most significant first. -/
def digitsVal (cs : List Char) : Nat :=
  cs.foldl (fun a c => a * 10 + (c.toNat - '0'.toNat)) 0

/-- Split a character list at `.` separators (String.prototype.split "."). -/
def splitDotAux : List Char → List Char → List (List Char)
  | [], acc => [acc.reverse]
  | c :: rest, acc =>
    if c = '.' then acc.reverse :: splitDotAux rest []
    else splitDotAux rest (c :: acc)

/-- Model of JavaScript parseFloat restricted to the timestamp tokens this
program meets: a digit string with at most one fractional part.  Any other
shape is mapped to zero (the claims never exercise those inputs). -/
def parseTs (s : String) : DecTs :=
  match splitDotAux s.data [] with
  | [w] =>
    if w ≠ [] ∧ w.all Char.isDigit then ⟨digitsVal w, 1⟩ else ⟨0, 1⟩
  | [w, f] =>
    if (w ≠ [] ∨ f ≠ []) ∧ w.all Char.isDigit ∧ f.all Char.isDigit then
      ⟨digitsVal (w ++ f), 10 ^ f.length⟩
    else ⟨0, 1⟩
  | _ => ⟨0, 1⟩

/-- `parseFloat(a.ts ?? "0")`, the sort key of fetchHistory. -/
def tsOf (m : SlackMessage) : DecTs :=
  parseTs (m.ts.getD "0")

/-- Stable insertion of a message into an already sorted list: the new
message goes before the first strictly larger key (equal keys keep their
original relative order, as the ES2019 stable sort does). -/
def insertByTs : List SlackMessage → SlackMessage → List SlackMessage
  | [], m => [m]
  | x :: xs, m =>
    if decLt (tsOf m) (tsOf x) then m :: x :: xs else x :: insertByTs xs m

/-- Model of `messages.sort((a, b) => parseFloat(a.ts ?? "0") - parseFloat(b.ts ?? "0"))`:
a stable ascending sort on the parsed timestamp. -/
def sortByTs (l : List SlackMessage) : List SlackMessage :=
  l.foldl insertByTs []

/-- fetchHistory: drain the paged history, then sort the drained set by
numeric timestamp ascending. -/
def fetchHistory (rs : List HistoryResponse) : Option (Except String (List SlackMessage)) :=
  match fetchHistoryLoop rs with
  | none => none
  | some (Except.error e, _) => some (Except.error e)
  | some (Except.ok msgs, _) => some (Except.ok (sortByTs msgs))

/-- Modelled from the spec: the remote conversations.history endpoint is
external to this repository; exporter.ts only forwards `oldest`/`latest`
("Drain message history (4.1) bounded by [startBound, endBound] translated
to the remote API's native time-encoding").  The endpoint is modelled as
answering with a single ok page holding exactly the stored messages whose
timestamp lies within the requested window, in stored order. -/
def historyEndpoint (stored : List SlackMessage) (oldest latest : Option DecTs) : HistoryResponse :=
  { ok := true
    error := none
    messages := some (stored.filter (fun m =>
      (match oldest with
       | some o => decLe o (tsOf m)
       | none => true)
      &&
      (match latest with
       | some l2 => decLe (tsOf m) l2
       | none => true)))
    response_metadata := none }

/- ---------------------------------------------------------------------
   Thread expansion.
   --------------------------------------------------------------------- -/

/-- fetchThreadReplies: drain the paged conversations.replies responses for
`threadTs`, then `replies.filter((msg) => msg.ts !== threadTs)`. -/
def fetchThreadReplies (rs : List HistoryResponse) (threadTs : String) :
    Option (Except String (List SlackMessage)) :=
  match paginate "Failed to fetch thread replies: " (rs.map historyPage) with
  | none => none
  | some (Except.error e, _) => some (Except.error e)
  | some (Except.ok msgs, _) =>
    some (Except.ok (msgs.filter (fun m => m.ts ≠ some threadTs)))

/-- The per-message reply fetch decision inside expandThreads:
`if (message.thread_ts && message.reply_count && message.reply_count > 0)`
fetch the thread, else an empty reply list.  `repliesPages` supplies the
conversations.replies responses the remote would deliver for a thread. -/
def repliesForMessage (repliesPages : String → List HistoryResponse) (m : SlackMessage) :
    Option (Except String (List SlackMessage)) :=
  match truthyOpt m.thread_ts with
  | some t =>
    if m.reply_count.getD 0 > 0 then fetchThreadReplies (repliesPages t) t
    else some (Except.ok [])
  | none => some (Except.ok [])

/-- expandThreads: walk the collected messages in order and pair each with
its (possibly empty) reply list.  The progress logging and the inter-fetch
delay have no effect on the produced aggregates and are not modelled. -/
def expandThreads (repliesPages : String → List HistoryResponse) :
    List SlackMessage → Option (Except String (List MessageWithReplies))
  | [] => some (Except.ok [])
  | m :: rest =>
    match repliesForMessage repliesPages m with
    | none => none
    | some (Except.error e) => some (Except.error e)
    | some (Except.ok rs) =>
      match expandThreads repliesPages rest with
      | none => none
      | some (Except.error e) => some (Except.error e)
      | some (Except.ok tail) =>
        some (Except.ok ({ message := m, replies := rs } :: tail))

/- ---------------------------------------------------------------------
   Name resolution.
   --------------------------------------------------------------------- -/

/-- extractDisplayName: the chained fallback
`profile?.display_name?.trim() || profile?.real_name?.trim() || user.real_name || user.id || "unknown"`. -/
def extractDisplayName (u : SlackUser) : String :=
  (jsOrS ((u.profile.bind SlackProfile.display_name).map jsTrim)
    (jsOrS ((u.profile.bind SlackProfile.real_name).map jsTrim)
      (jsOrS u.real_name
        (jsOrS u.id (some "unknown"))))).getD "unknown"

/-- getUserName: serve a truthy cached name; otherwise issue users.info
(its outcome is the `outcome` argument).  A not-ok envelope, a missing
user payload, or a thrown error (rate-limited or not) caches and returns
the identifier itself; a usable payload runs the fallback chain ending in
the identifier.  Result: the returned name, the updated cache, and whether
the remote call was made (`false` = served from cache).  The try/catch in
the source swallows every thrown error, which is why the function is total
and never returns an `Except.error`. -/
def getUserName (cache : Cache) (userId : String) (outcome : UsersInfoOutcome) :
    String × Cache × Bool :=
  match truthyOpt (mapGet cache userId) with
  | some cached => (cached, cache, false)
  | none =>
    match outcome with
    | UsersInfoOutcome.success resp =>
      match resp.ok, resp.user with
      | true, some u =>
        let displayName :=
          (jsOrS ((u.profile.bind SlackProfile.display_name).map jsTrim)
            (jsOrS ((u.profile.bind SlackProfile.real_name).map jsTrim)
              (jsOrS u.real_name (some userId)))).getD userId
        (displayName, mapSet cache userId displayName, true)
      | _, _ => (userId, mapSet cache userId userId, true)
    | UsersInfoOutcome.threw _ => (userId, mapSet cache userId userId, true)

/-- The remote-failure condition of getUserName: the awaited call threw, or
the envelope is not ok, or it carries no user payload. -/
def lookupFailed : UsersInfoOutcome → Prop
  | UsersInfoOutcome.threw _ => True
  | UsersInfoOutcome.success resp => resp.ok = false ∨ resp.user = none

/-- Environment of the render-time author resolution: the users.info
outcome per user id, and the external `Date.prototype.toISOString`
rendering of `parseTimestamp(ts)` (a runtime builtin, kept abstract). -/
structure RenderEnv where
  usersInfo : String → UsersInfoOutcome
  toIso : Option String → String

/-- resolveUserName: a truthy `message.user` goes through getUserName; a
truthy `message.bot_id` renders as `message.username || "bot:" + bot_id`
without any remote call; otherwise the literal `"unknown"`. -/
def resolveUserName (env : RenderEnv) (cache : Cache) (m : SlackMessage) :
    String × Cache × Bool :=
  match truthyOpt m.user with
  | some uid => getUserName cache uid (env.usersInfo uid)
  | none =>
    match truthyOpt m.bot_id with
    | some bid => ((jsOrS m.username (some ("bot:" ++ bid))).getD "", cache, false)
    | none => ("unknown", cache, false)

/- ---------------------------------------------------------------------
   Durable snapshots (channels.json / users.json) and their loaders.
   --------------------------------------------------------------------- -/

/-- The channels.json snapshot record: freshness timestamp plus the full
name-to-id mapping (a JSON object, insertion ordered). -/
structure ChannelCacheFile where
  updatedAt : String
  channels : List (String × String)
deriving DecidableEq

/-- The users.json snapshot record: freshness timestamp plus the full
id-to-displayName mapping. -/
structure UserCacheFile where
  updatedAt : String
  users : List (String × String)
deriving DecidableEq

/-- saveUserCacheToFile: replace the durable file wholesale with a record
stamped `now` (new Date().toISOString() is external wall-clock input). -/
def saveUserCacheToFile (now : String) (users : List (String × String)) :
    Option UserCacheFile :=
  some { updatedAt := now, users := users }

/-- loadUserCacheFromFile: read and parse the file, `none` when missing or
unreadable (the catch-all in the source). -/
def loadUserCacheFromFile (file : Option UserCacheFile) : Option UserCacheFile :=
  file

/-- saveChannelCacheToFile, identical in shape. -/
def saveChannelCacheToFile (now : String) (channels : List (String × String)) :
    Option ChannelCacheFile :=
  some { updatedAt := now, channels := channels }

/-- loadChannelCacheFromFile. -/
def loadChannelCacheFromFile (file : Option ChannelCacheFile) : Option ChannelCacheFile :=
  file

/-- The snapshot branch of prefetchUsers (forceRefresh = false): when a
durable snapshot loads, copy every entry into the in-memory user cache via
`this.userCache.set(id, name)` and stop — no remote call.  `none` stands
for the branch falling through to the remote users.list fetch. -/
def prefetchUsersCached (cache0 : Cache) (file : Option UserCacheFile) : Option Cache :=
  match loadUserCacheFromFile file with
  | some cf => some (cf.users.foldl (fun m p => mapSet m p.1 p.2) cache0)
  | none => none

/-- The snapshot-loading loop shared by resolveChannelId and
getChannelName: every `name -> id` entry of the loaded channel snapshot is
copied into the in-memory maps (`channelNameToIdCache.set(name, id)` and
`channelIdToNameCache.set(id, name)`). -/
def loadChannelSnapshotIntoMemory (nameToId idToName : Cache) (file : Option ChannelCacheFile) :
    Option (Cache × Cache) :=
  match loadChannelCacheFromFile file with
  | some cf =>
    some (cf.channels.foldl (fun m p => mapSet m p.1 p.2) nameToId,
          cf.channels.foldl (fun m p => mapSet m p.2 p.1) idToName)
  | none => none

/- ---------------------------------------------------------------------
   Channel resolution.
   --------------------------------------------------------------------- -/

/-- `channelIdOrName.startsWith("C") || channelIdOrName.startsWith("G")`. -/
def startsWithCG (s : String) : Bool :=
  match s.data with
  | 'C' :: _ => true
  | 'G' :: _ => true
  | _ => false

/-- `channelIdOrName.replace(/^#/, "")`: drop one leading hash. -/
def stripHash (s : String) : String :=
  match s.data with
  | '#' :: rest => String.mk rest
  | _ => s

/-- How resolveChannelId turns a conversations.list response into a page of
`(name, id)` pairs: `if (ch.id && ch.name) allChannels[ch.name] = ch.id`. -/
def channelsPage (r : ChannelsListResponse) : Page (String × String) :=
  { ok := r.ok
    error := r.error
    items := (r.channels.getD []).filterMap (fun ch =>
      match truthyOpt ch.id, truthyOpt ch.name with
      | some i, some n => some (n, i)
      | _, _ => none)
    next_cursor := r.response_metadata.bind ResponseMetadata.next_cursor }

/-- The API-fallback tail of resolveChannelId: drain conversations.list
(throwing on a not-ok page, which leaves the durable file untouched),
then — only after the loop finished — replace the durable snapshot
wholesale and look the normalized name up; an absent name throws
"Channel not found" after the save.  Returns the result and the durable
file as left on disk.  (The loop also fills the two in-memory maps; those
maps never feed back into this result or the file and are omitted here.) -/
def resolveChannelIdViaApi (chRef normalized now : String)
    (pages : List (Page (String × String))) (file : Option ChannelCacheFile) :
    Option (Except String String × Option ChannelCacheFile) :=
  match paginate "Failed to list channels: " pages with
  | none => none
  | some (Except.error e, _) => some (Except.error e, file)
  | some (Except.ok pairs, _) =>
    let allChannels := pairs.foldl (fun m p => mapSet m p.1 p.2) []
    let newFile : Option ChannelCacheFile := some { updatedAt := now, channels := allChannels }
    match truthyOpt (mapGet allChannels normalized) with
    | some cid => some (Except.ok cid, newFile)
    | none => some (Except.error ("Channel not found: " ++ chRef), newFile)

/-- resolveChannelId: an identifier shaped like a channel id is returned
as-is; otherwise strip a leading `#`, try the in-memory map, then the
durable snapshot, then fall back to the full conversations.list fetch
(`rs`), which is the only path that rewrites the durable snapshot. -/
def resolveChannelId (chRef now : String) (mem : Cache) (file : Option ChannelCacheFile)
    (rs : List ChannelsListResponse) :
    Option (Except String String × Option ChannelCacheFile) :=
  if startsWithCG chRef then some (Except.ok chRef, file)
  else
    let normalized := stripHash chRef
    match truthyOpt (mapGet mem normalized) with
    | some cid => some (Except.ok cid, file)
    | none =>
      match loadChannelCacheFromFile file with
      | some cf =>
        match truthyOpt (mapGet cf.channels normalized) with
        | some cid => some (Except.ok cid, file)
        | none => resolveChannelIdViaApi chRef normalized now (rs.map channelsPage) file
      | none => resolveChannelIdViaApi chRef normalized now (rs.map channelsPage) file

/- ---------------------------------------------------------------------
   CSV rendering.
   --------------------------------------------------------------------- -/

/-- The global regex replacement of sanitizeText:
`text.replace(/\r\n|\r|\n/g, " ")` — a CRLF pair becomes one space, a lone
CR or LF becomes a space. -/
def collapseNewlines : List Char → List Char
  | [] => []
  | '\r' :: '\n' :: rest => ' ' :: collapseNewlines rest
  | '\r' :: rest => ' ' :: collapseNewlines rest
  | '\n' :: rest => ' ' :: collapseNewlines rest
  | c :: rest => c :: collapseNewlines rest

/-- sanitizeText: collapse newlines to spaces, then trim. -/
def sanitizeText (text : String) : String :=
  jsTrim (String.mk (collapseNewlines text.data))

/-- `value.replace(/"/g, '""')`: double every embedded quote. -/
def doubleQuotes : List Char → List Char
  | [] => []
  | c :: rest =>
    if c = '"' then '"' :: '"' :: doubleQuotes rest
    else c :: doubleQuotes rest

/-- The `/[",\n]/` test of escapeCsv. -/
def csvSpecial (c : Char) : Bool :=
  c == '"' || c == ',' || c == '\n'

/-- escapeCsv: double embedded quotes, and wrap the whole field in quotes
exactly when it contains a comma, a quote, or a line feed. -/
def escapeCsv (v : String) : String :=
  let needsQuotes := v.data.any csvSpecial
  let escaped := String.mk (doubleQuotes v.data)
  if needsQuotes then "\"" ++ escaped ++ "\"" else escaped

/-- The six cells of a root-message CSV row, in source order:
ISO timestamp, channel, user, sanitized text, `thread_ts ?? ""`, and
`String(reply_count ?? 0)`.  Also returns the user cache as updated by the
author lookup. -/
def rootCells (env : RenderEnv) (cache : Cache) (channelName : String) (m : SlackMessage) :
    List String × Cache :=
  let res := resolveUserName env cache m
  ([escapeCsv (env.toIso m.ts),
    escapeCsv channelName,
    escapeCsv res.1,
    escapeCsv (sanitizeText (m.text.getD "")),
    escapeCsv (m.thread_ts.getD ""),
    escapeCsv (toString (m.reply_count.getD 0))], res.2.1)

/-- The six cells of a reply CSV row, in source order: the reply-count
column is the literal `"0"` and the thread-anchor column is the reply's
own `thread_ts ?? ""`. -/
def replyCells (env : RenderEnv) (cache : Cache) (channelName : String) (r : SlackMessage) :
    List String × Cache :=
  let res := resolveUserName env cache r
  ([escapeCsv (env.toIso r.ts),
    escapeCsv channelName,
    escapeCsv res.1,
    escapeCsv (sanitizeText (r.text.getD "")),
    escapeCsv (r.thread_ts.getD ""),
    escapeCsv "0"], res.2.1)

/-- The reply rows of one aggregate, threading the user cache. -/
def replyRowsAux (env : RenderEnv) (channelName : String) :
    List SlackMessage → Cache → List (List String) × Cache
  | [], cache => ([], cache)
  | r :: rest, cache =>
    let cells := replyCells env cache channelName r
    let tail := replyRowsAux env channelName rest cells.2
    (cells.1 :: tail.1, tail.2)

/-- The data rows of formatAsCsv (everything below the header), as lists of
cells: one root row then one row per reply, per aggregate, in order. -/
def csvCellRows (env : RenderEnv) (channelName : String) :
    List MessageWithReplies → Cache → List (List String) × Cache
  | [], cache => ([], cache)
  | a :: rest, cache =>
    let rc := rootCells env cache channelName a.message
    let rr := replyRowsAux env channelName a.replies rc.2
    let tail := csvCellRows env channelName rest rr.2
    (rc.1 :: rr.1 ++ tail.1, tail.2)

/-- Model of os.EOL (the platform line separator joining the CSV rows). -/
def osEOL : String := "\n"

/-- formatAsCsv: the fixed header line followed by every row, each row the
comma-join of its cells, all joined with the platform EOL. -/
def formatAsCsv (env : RenderEnv) (cache : Cache) (channelName : String)
    (messages : List MessageWithReplies) : String × Cache :=
  let rows := csvCellRows env channelName messages cache
  (String.intercalate osEOL
    ("timestamp,channel,user,text,thread_ts,reply_count" ::
      redRows rows.1), rows.2)
where
  redRows : List (List String) → List String
  | [] => []
  | r :: rest => String.intercalate "," r :: redRows rest

/- ---------------------------------------------------------------------
   Spec-side comparison definitions (written from the spec's words, to be
   compared with the code's behaviour) and concrete fixtures.
   --------------------------------------------------------------------- -/

/-- The name-selection policy exactly as the spec's claim states it, three
tiers only: the trimmed profile display-name when nonempty, else the
trimmed profile real-name when nonempty, else the raw user identifier. -/
def claimThreeTierName (u : SlackUser) : String :=
  let d := ((u.profile.bind SlackProfile.display_name).map jsTrim).getD ""
  if d ≠ "" then d
  else
    let r := ((u.profile.bind SlackProfile.real_name).map jsTrim).getD ""
    if r ≠ "" then r
    else u.id.getD ""

/-- The per-field CSV rendering exactly as the claim states it for every
string field: first collapse embedded newlines to spaces, then double
embedded quotes, and wrap in quotes exactly when the field contains a
comma, quote, or newline. -/
def claimFieldRender (s : String) : String :=
  let collapsed := String.mk (collapseNewlines s.data)
  let doubled := String.mk (doubleQuotes collapsed.data)
  if collapsed.data.any csvSpecial then "\"" ++ doubled ++ "\"" else doubled

/-- A user record whose profile has neither name but whose top-level
real_name is set: the code's extra fallback tier fires on it. -/
def uCex : SlackUser :=
  { id := some "U1"
    real_name := some "Alice Real"
    profile := some { display_name := none, real_name := none } }

/-- A user record carrying only a profile real-name (with surrounding
whitespace, so trimming is observable). -/
def uWit : SlackUser :=
  { id := some "U9"
    real_name := none
    profile := some { display_name := none, real_name := some " Bob " } }

/-- Render environment for the concrete CSV computations: every users.info
call throws and the external ISO rendering is the constant "T". -/
def envCex : RenderEnv :=
  { usersInfo := fun _ => UsersInfoOutcome.threw false
    toIso := fun _ => "T" }

/-- A thread-rooting bot message whose anchor is "111". -/
def rootCex : SlackMessage :=
  { ts := some "1", user := none, bot_id := some "B1", username := some "alice"
    text := some "hi", thread_ts := some "111", reply_count := some 1 }

/-- A reply carrying a thread anchor different from its root's. -/
def replyCex : SlackMessage :=
  { ts := some "2", user := none, bot_id := some "B2", username := some "bob"
    text := some "yo", thread_ts := some "999", reply_count := none }

/-- A bot message whose username embeds a newline. -/
def botMsgNl : SlackMessage :=
  { ts := some "3", user := none, bot_id := some "B3", username := some "a\nb"
    text := some "x", thread_ts := none, reply_count := none }

/-- Channel messages at timestamps 100.0, 200.0 and 300.0. -/
def m100 : SlackMessage :=
  { ts := some "100.0", user := some "U1", bot_id := none, username := none
    text := some "one", thread_ts := none, reply_count := none }

def m200 : SlackMessage :=
  { ts := some "200.0", user := some "U1", bot_id := none, username := none
    text := some "two", thread_ts := none, reply_count := none }

def m300 : SlackMessage :=
  { ts := some "300.0", user := some "U1", bot_id := none, username := none
    text := some "three", thread_ts := none, reply_count := none }

/-- A message without a thread anchor (used to instantiate expandThreads). -/
def mPlain : SlackMessage :=
  { ts := some "5", user := some "U2", bot_id := none, username := none
    text := some "plain", thread_ts := none, reply_count := none }

/-- Two well-formed history pages: the first hands out a cursor, the second
ends the pagination. -/
def histPage1 : HistoryResponse :=
  { ok := true, error := none, messages := some [m100, m200]
    response_metadata := some { next_cursor := some "cur1" } }

def histPage2 : HistoryResponse :=
  { ok := true, error := none, messages := some [m300]
    response_metadata := some { next_cursor := some "" } }

/-- A failing conversations.list response. -/
def chanPageBad : ChannelsListResponse :=
  { ok := false, error := some "ratelimited", channels := none
    response_metadata := none }

/-- A successful single-page conversations.list response. -/
def chanPageOk : ChannelsListResponse :=
  { ok := true, error := none
    channels := some [{ id := some "C123", name := some "general" }]
    response_metadata := none }

/- ---------------------------------------------------------------------
   Pagination lemmas.
   --------------------------------------------------------------------- -/

/-- A pagination run over ok pages whose last page ends the cursor chain
consumes every page and concatenates the items in page order. -/
theorem paginate_complete {α : Type} (c : String) (mid : List (Page α)) (lastP : Page α)
    (hmid : ∀ p ∈ mid, p.ok = true ∧ cursorTruthy p.next_cursor = true)
    (hok : lastP.ok = true) (hcur : cursorTruthy lastP.next_cursor = false) :
    paginate c (mid ++ [lastP]) =
      some (Except.ok (((mid ++ [lastP]).map Page.items).flatten), mid.length + 1) := by
  induction mid with
  | nil =>
    simp [paginate, hok, hcur]
  | cons p mid ih =>
    have hp := hmid p (List.mem_cons_self p mid)
    have hrest : ∀ q ∈ mid, q.ok = true ∧ cursorTruthy q.next_cursor = true :=
      fun q hq => hmid q (List.mem_cons_of_mem p hq)
    simp only [List.cons_append, paginate, hp.1, hp.2, if_true, List.append_eq]
    rw [ih hrest]
    simp [Nat.add_comm]

/-- A pagination run hitting a not-ok page after a run of ok, cursor-bearing
pages stops there with the site's error message; the pages behind the bad
one are never fetched. -/
theorem paginate_error_of_bad {α : Type} (c : String) (good : List (Page α)) (bad : Page α)
    (rest : List (Page α))
    (hgood : ∀ p ∈ good, p.ok = true ∧ cursorTruthy p.next_cursor = true)
    (hbad : bad.ok = false) :
    paginate c (good ++ bad :: rest) =
      some (Except.error (c ++ bad.error.getD "unknown_error"), good.length + 1) := by
  induction good with
  | nil =>
    simp [paginate, hbad]
  | cons p good ih =>
    have hp := hgood p (List.mem_cons_self p good)
    have hrest : ∀ q ∈ good, q.ok = true ∧ cursorTruthy q.next_cursor = true :=
      fun q hq => hgood q (List.mem_cons_of_mem p hq)
    simp only [List.cons_append, paginate, hp.1, hp.2, if_true, List.append_eq]
    rw [ih hrest]
    simp [Nat.add_comm]

/-- C1: for every finite sequence of history responses in which each page
reports ok and the final page carries an absent or empty next cursor (all
earlier pages carrying a truthy cursor, which is what makes the loop reach
them), the fetchHistory pagination loop terminates exactly at that final
page — consuming `mid.length + 1` pages — and returns the concatenation of
all pages' message lists in page order, each page's messages kept in
delivered order. -/
theorem fetchHistory_pagination_complete
    (mid : List HistoryResponse) (lastR : HistoryResponse)
    (hmid : ∀ r ∈ mid, r.ok = true ∧
      cursorTruthy (r.response_metadata.bind ResponseMetadata.next_cursor) = true)
    (hok : lastR.ok = true)
    (hcur : cursorTruthy (lastR.response_metadata.bind ResponseMetadata.next_cursor) = false) :
    fetchHistoryLoop (mid ++ [lastR]) =
      some (Except.ok (((mid ++ [lastR]).map (fun r => r.messages.getD [])).flatten),
            mid.length + 1) := by
  unfold fetchHistoryLoop
  rw [List.map_append]
  simp only [List.map_cons, List.map_nil]
  rw [paginate_complete "Failed to fetch history: " (mid.map historyPage) (historyPage lastR)
    (by intro p hp
        rcases List.mem_map.mp hp with ⟨r, hr, rfl⟩
        exact ⟨(hmid r hr).1, (hmid r hr).2⟩)
    hok hcur]
  simp [Function.comp_def, historyPage]

/-- Witness for C1 at a concrete two-page run. -/
theorem fetchHistory_pagination_complete_witness :
    fetchHistoryLoop ([histPage1] ++ [histPage2]) =
      some (Except.ok ((([histPage1] ++ [histPage2]).map (fun r => r.messages.getD [])).flatten),
            [histPage1].length + 1) :=
  fetchHistory_pagination_complete [histPage1] histPage2
    (by intro r hr
        rw [List.mem_singleton] at hr
        subst hr
        exact ⟨rfl, rfl⟩)
    rfl rfl

/- ---------------------------------------------------------------------
   Thread expansion invariants.
   --------------------------------------------------------------------- -/

/-- A successful fetchThreadReplies never returns a message whose ts equals
the requested thread anchor (the trailing filter removes the re-delivered
anchor). -/
theorem fetchThreadReplies_no_anchor (rs : List HistoryResponse) (t : String)
    (out : List SlackMessage)
    (h : fetchThreadReplies rs t = some (Except.ok out)) :
    ∀ r ∈ out, r.ts ≠ some t := by
  unfold fetchThreadReplies at h
  cases hp : paginate "Failed to fetch thread replies: " (rs.map historyPage) with
  | none => rw [hp] at h; cases h
  | some r =>
    rw [hp] at h
    rcases r with ⟨res, n⟩
    cases res with
    | error e => simp at h
    | ok msgs =>
      simp at h
      subst h
      intro r hr
      have := (List.mem_filter.mp hr).2
      simpa using this

/-- Reply lists produced per message: empty when the message has no truthy
thread anchor or a zero/absent reply count, and never containing the
anchor itself. -/
theorem repliesForMessage_spec (repliesPages : String → List HistoryResponse)
    (m : SlackMessage) (rs : List SlackMessage)
    (h : repliesForMessage repliesPages m = some (Except.ok rs)) :
    ((truthyOpt m.thread_ts = none ∨ m.reply_count.getD 0 = 0) → rs = []) ∧
    (∀ anchor, m.thread_ts = some anchor → ∀ r ∈ rs, r.ts ≠ some anchor) := by
  unfold repliesForMessage at h
  cases ht : truthyOpt m.thread_ts with
  | none =>
    rw [ht] at h
    simp at h
    subst h
    exact ⟨fun _ => rfl, fun anchor hanch r hr => absurd hr (List.not_mem_nil r)⟩
  | some t =>
    simp only [ht] at h
    by_cases hc : m.reply_count.getD 0 > 0
    · rw [if_pos hc] at h
      constructor
      · intro hcond
        rcases hcond with h1 | h1
        · simp [ht] at h1
        · omega
      · intro anchor hanch r hr
        have hta : t = anchor := by
          rw [hanch] at ht
          simp only [truthyOpt] at ht
          by_cases he : anchor = ""
          · rw [if_pos he] at ht; cases ht
          · rw [if_neg he] at ht; injection ht with ht; exact ht.symm
        subst hta
        exact fetchThreadReplies_no_anchor _ _ _ h r hr
    · rw [if_neg hc] at h
      simp at h
      subst h
      exact ⟨fun _ => rfl, fun anchor hanch r hr => absurd hr (List.not_mem_nil r)⟩

/-- C2: in every aggregate produced by expandThreads, a root with a
zero/absent reply count or without a (truthy) thread anchor carries an
empty reply sequence, and no reply whose ts equals the root's thread
anchor appears in that root's replies — the anchor message never shows up
inside its own thread expansion. -/
theorem expandThreads_reply_invariant
    (repliesPages : String → List HistoryResponse) (msgs : List SlackMessage)
    (aggs : List MessageWithReplies)
    (h : expandThreads repliesPages msgs = some (Except.ok aggs)) :
    ∀ a ∈ aggs,
      ((truthyOpt a.message.thread_ts = none ∨ a.message.reply_count.getD 0 = 0) →
        a.replies = []) ∧
      (∀ anchor, a.message.thread_ts = some anchor → ∀ r ∈ a.replies, r.ts ≠ some anchor) := by
  induction msgs generalizing aggs with
  | nil =>
    simp [expandThreads] at h
    subst h
    intro a ha
    cases ha
  | cons m rest ih =>
    rw [expandThreads] at h
    cases hrm : repliesForMessage repliesPages m with
    | none => rw [hrm] at h; cases h
    | some res =>
      rw [hrm] at h
      cases res with
      | error e => simp at h
      | ok rs =>
        cases het : expandThreads repliesPages rest with
        | none => simp [het] at h
        | some res2 =>
          rw [het] at h
          cases res2 with
          | error e => simp at h
          | ok tail =>
            simp at h
            subst h
            intro a ha
            rcases List.mem_cons.mp ha with rfl | ha2
            · exact repliesForMessage_spec repliesPages m rs hrm
            · exact ih tail het a ha2

/-- Witness for C2: a message without a thread anchor yields an aggregate
with an empty reply sequence. -/
theorem expandThreads_reply_invariant_witness :
    ({ message := mPlain, replies := [] } : MessageWithReplies).replies = [] :=
  (expandThreads_reply_invariant (fun _ => []) [mPlain]
      [{ message := mPlain, replies := [] }] rfl
      { message := mPlain, replies := [] } (List.mem_singleton.mpr rfl)).1
    (Or.inl rfl)

/- ---------------------------------------------------------------------
   Name-resolution fallback chain.
   --------------------------------------------------------------------- -/

/-- C3 counterexample: on a user whose profile has neither name but whose
top-level real_name is set, the code returns that top-level real name while
the claimed three-tier chain returns the raw identifier — name resolution
does not follow exactly the claimed three-tier chain. -/
theorem extractDisplayName_not_three_tier :
    extractDisplayName uCex = "Alice Real" ∧ claimThreeTierName uCex = "U1" ∧
    ("Alice Real" : String) ≠ "U1" :=
  ⟨rfl, rfl, by decide⟩

/-- C3 amended: name resolution follows a four-tier chain — trimmed profile
display-name when nonempty; else trimmed profile real-name when nonempty;
else the top-level real_name of the user record (untrimmed) when truthy;
else the raw identifier (extractDisplayName further falls back to the
literal "unknown" when even the id is absent; getUserName on a usable
users.info payload falls back to the looked-up id). -/
theorem name_resolution_fallback_chain (u : SlackUser) :
    (∀ d, truthyOpt ((u.profile.bind SlackProfile.display_name).map jsTrim) = some d →
      extractDisplayName u = d) ∧
    (truthyOpt ((u.profile.bind SlackProfile.display_name).map jsTrim) = none →
      ∀ r, truthyOpt ((u.profile.bind SlackProfile.real_name).map jsTrim) = some r →
      extractDisplayName u = r) ∧
    (truthyOpt ((u.profile.bind SlackProfile.display_name).map jsTrim) = none →
      truthyOpt ((u.profile.bind SlackProfile.real_name).map jsTrim) = none →
      ∀ t, truthyOpt u.real_name = some t → extractDisplayName u = t) ∧
    (truthyOpt ((u.profile.bind SlackProfile.display_name).map jsTrim) = none →
      truthyOpt ((u.profile.bind SlackProfile.real_name).map jsTrim) = none →
      truthyOpt u.real_name = none →
      ∀ i, truthyOpt u.id = some i → extractDisplayName u = i) ∧
    (truthyOpt ((u.profile.bind SlackProfile.display_name).map jsTrim) = none →
      truthyOpt ((u.profile.bind SlackProfile.real_name).map jsTrim) = none →
      truthyOpt u.real_name = none → truthyOpt u.id = none →
      extractDisplayName u = "unknown") ∧
    (∀ cache userId resp u2,
      truthyOpt (mapGet cache userId) = none →
      resp.ok = true → resp.user = some u2 →
      truthyOpt ((u2.profile.bind SlackProfile.display_name).map jsTrim) = none →
      truthyOpt ((u2.profile.bind SlackProfile.real_name).map jsTrim) = none →
      truthyOpt u2.real_name = none →
      (getUserName cache userId (UsersInfoOutcome.success resp)).1 = userId) := by
  refine ⟨?_, ?_, ?_, ?_, ?_, ?_⟩
  · intro d hd
    simp only [extractDisplayName, jsOrS, hd, Option.getD_some]
  · intro h1 r hr
    simp only [extractDisplayName, jsOrS, h1, hr, Option.getD_some]
  · intro h1 h2 t ht
    simp only [extractDisplayName, jsOrS, h1, h2, ht, Option.getD_some]
  · intro h1 h2 h3 i hi
    simp only [extractDisplayName, jsOrS, h1, h2, h3, hi, Option.getD_some]
  · intro h1 h2 h3 h4
    simp only [extractDisplayName, jsOrS, h1, h2, h3, h4, Option.getD_some]
  · intro cache userId resp u2 hmiss hok huser h1 h2 h3
    simp only [getUserName, hmiss, hok, huser, jsOrS, h1, h2, h3, Option.getD_some]

/-- Witness for C3's amended chain: a profile with only a (padded)
real-name resolves to the trimmed real-name. -/
theorem name_resolution_fallback_chain_witness :
    extractDisplayName uWit = "Bob" :=
  (name_resolution_fallback_chain uWit).2.1 rfl "Bob" rfl

/- ---------------------------------------------------------------------
   Cache map lemmas and getUserName failure behaviour.
   --------------------------------------------------------------------- -/

/-- After an overwriting set, the key is found with the new value. -/
theorem find_map_set (m : Cache) (k v : String)
    (h : (m.find? (fun p => p.1 == k)).isSome = true) :
    (m.map (fun p => if p.1 == k then (k, v) else p)).find? (fun p => p.1 == k) =
      some (k, v) := by
  induction m with
  | nil => simp at h
  | cons p m ih =>
    by_cases hp : (p.1 == k) = true
    · simp only [List.map_cons, if_pos hp]
      rw [List.find?_cons_of_pos]
      simp
    · simp only [List.map_cons, if_neg hp]
      rw [List.find?_cons_of_neg _ (by simpa using hp)]
      apply ih
      rw [List.find?_cons_of_neg _ (by simpa using hp)] at h
      exact h

/-- After an appending set, the key is found with the new value. -/
theorem find_append_missing (m : Cache) (k v : String)
    (h : m.find? (fun p => p.1 == k) = none) :
    (m ++ [(k, v)]).find? (fun p => p.1 == k) = some (k, v) := by
  induction m with
  | nil =>
    simp [List.find?]
  | cons p m ih =>
    rw [List.find?_cons] at h
    rcases hpk : (p.1 == k) with _ | _
    · rw [hpk] at h
      simp only [cond_false] at h
      rw [List.cons_append, List.find?_cons_of_neg _ (by simp [hpk])]
      exact ih h
    · rw [hpk] at h
      simp at h
/-- A set followed by a get on the same key yields the set value. -/
theorem mapGet_mapSet_self (m : Cache) (k v : String) :
    mapGet (mapSet m k v) k = some v := by
  unfold mapGet mapSet
  by_cases hs : (m.find? (fun p => p.1 == k)).isSome = true
  · rw [if_pos hs, find_map_set m k v hs]
    rfl
  · rw [if_neg hs, find_append_missing m k v (by
      rcases hn : m.find? (fun p => p.1 == k) with _ | q
      · exact hn
      · rw [hn] at hs; simp at hs)]
    rfl

/-- C4: on any failing users.info outcome — not-ok envelope, missing user
payload, or a thrown error including the rate-limit signal — getUserName
does not raise (it is total and returns a plain string): it stores the
identifier itself as the identifier's display name in the in-memory cache
and returns the identifier, and every subsequent resolution of the same id
is served from the cache (`false` = no remote call made). -/
theorem getUserName_failure_caches_identifier
    (cache : Cache) (userId : String) (outcome : UsersInfoOutcome)
    (hmiss : truthyOpt (mapGet cache userId) = none)
    (hfail : lookupFailed outcome) (hid : userId ≠ "") :
    getUserName cache userId outcome = (userId, mapSet cache userId userId, true) ∧
    mapGet (mapSet cache userId userId) userId = some userId ∧
    ∀ outcome2, getUserName (mapSet cache userId userId) userId outcome2 =
      (userId, mapSet cache userId userId, false) := by
  have hcached : ∀ outcome2, getUserName (mapSet cache userId userId) userId outcome2 =
      (userId, mapSet cache userId userId, false) := by
    intro outcome2
    unfold getUserName
    rw [mapGet_mapSet_self]
    simp only [truthyOpt, if_neg hid]
  refine ⟨?_, mapGet_mapSet_self cache userId userId, hcached⟩
  unfold getUserName
  rw [hmiss]
  cases outcome with
  | threw rl => rfl
  | success resp =>
    obtain ⟨rok, rerr, ruser⟩ := resp
    rcases hfail with hok | huser
    · simp only at hok
      subst hok
      cases ruser <;> rfl
    · simp only at huser
      subst huser
      cases rok <;> rfl

/-- Witness for C4 at a concrete failing outcome. -/
theorem getUserName_failure_caches_identifier_witness :
    getUserName [] "U7" (UsersInfoOutcome.threw true) = ("U7", mapSet [] "U7" "U7", true) ∧
    mapGet (mapSet [] "U7" "U7") "U7" = some "U7" ∧
    getUserName (mapSet [] "U7" "U7") "U7" (UsersInfoOutcome.threw false) =
      ("U7", mapSet [] "U7" "U7", false) := by
  have h := getUserName_failure_caches_identifier [] "U7" (UsersInfoOutcome.threw true)
    rfl trivial (by decide)
  exact ⟨h.1, h.2.1, h.2.2 (UsersInfoOutcome.threw false)⟩

/- ---------------------------------------------------------------------
   CSV reply rows.
   --------------------------------------------------------------------- -/

/-- C5 counterexample: on an aggregate whose reply carries a thread anchor
("999") different from its root's ("111"), the emitted reply row's
thread-anchor column is the reply's own anchor, not the root's — the claim
that reply rows inherit the root's thread-anchor id fails. -/
theorem csv_reply_anchor_cex :
    csvCellRows envCex "general" [{ message := rootCex, replies := [replyCex] }] [] =
      ([["T", "general", "alice", "hi", "111", "1"],
        ["T", "general", "bob", "yo", "999", "0"]], []) ∧
    rootCex.thread_ts = some "111" ∧ ("999" : String) ≠ "111" :=
  ⟨rfl, rfl, by decide⟩

/-- C5 amended: in the CSV output, every reply row's reply-count column is
the literal "0" (only root rows carry the real count), and its
thread-anchor column is the escaped form of the reply's own thread-anchor
id (empty when absent) — which coincides with the root's anchor exactly
when the reply carries the root's anchor, as the remote thread fetch
delivers. -/
theorem csv_reply_row_columns (env : RenderEnv) (cache : Cache) (ch : String)
    (r : SlackMessage) :
    (replyCells env cache ch r).1.get? 5 = some "0" ∧
    (replyCells env cache ch r).1.get? 4 = some (escapeCsv (r.thread_ts.getD "")) ∧
    (∀ anchor, r.thread_ts = some anchor →
      (replyCells env cache ch r).1.get? 4 = some (escapeCsv anchor)) := by
  refine ⟨rfl, rfl, ?_⟩
  intro anchor h
  show some (escapeCsv (r.thread_ts.getD "")) = some (escapeCsv anchor)
  rw [h]
  rfl

/-- Witness for C5's amended statement on a concrete reply row. -/
theorem csv_reply_row_columns_witness :
    (replyCells envCex [] "general" replyCex).1.get? 5 = some "0" ∧
    (replyCells envCex [] "general" replyCex).1.get? 4 = some (escapeCsv "999") :=
  ⟨(csv_reply_row_columns envCex [] "general" replyCex).1,
   (csv_reply_row_columns envCex [] "general" replyCex).2.2 "999" rfl⟩

/- ---------------------------------------------------------------------
   CSV field escaping.
   --------------------------------------------------------------------- -/

/-- The newline-collapsing replacement never leaves a LF or CR behind. -/
theorem collapseNewlines_chars : ∀ (l : List Char), ∀ c ∈ collapseNewlines l, c ≠ '\n' ∧ c ≠ '\r' := by
  intro l
  induction l using collapseNewlines.induct with
  | case1 =>
    intro c hc
    cases hc
  | case2 rest ih =>
    intro c hc
    simp only [collapseNewlines, List.mem_cons] at hc
    rcases hc with h | h
    · subst h; exact ⟨by decide, by decide⟩
    · exact ih c h
  | case3 rest hne ih =>
    intro c hc
    rw [collapseNewlines.eq_3 rest hne] at hc
    rcases List.mem_cons.mp hc with h | h
    · subst h; exact ⟨by decide, by decide⟩
    · exact ih c h
  | case4 rest ih =>
    intro c hc
    simp only [collapseNewlines, List.mem_cons] at hc
    rcases hc with h | h
    · subst h; exact ⟨by decide, by decide⟩
    · exact ih c h
  | case5 a rest h1 h2 h3 ih =>
    intro c hc
    rw [collapseNewlines.eq_5 a rest h1 h2 h3] at hc
    rcases List.mem_cons.mp hc with h | h
    · subst h; exact ⟨h3, h2⟩
    · exact ih c h

/-- dropWhile only removes elements. -/
theorem mem_of_mem_dropWhile {α : Type} (p : α → Bool) :
    ∀ (l : List α) (c : α), c ∈ l.dropWhile p → c ∈ l := by
  intro l
  induction l with
  | nil => intro c hc; exact hc
  | cons a l ih =>
    intro c hc
    rw [List.dropWhile_cons] at hc
    by_cases hp : p a = true
    · rw [if_pos hp] at hc
      exact List.mem_cons_of_mem a (ih c hc)
    · rw [if_neg hp] at hc
      exact hc

/-- Trimming only removes elements. -/
theorem mem_of_mem_trimChars (l : List Char) (c : Char) (h : c ∈ trimChars l) : c ∈ l := by
  unfold trimChars at h
  rw [List.mem_reverse] at h
  have h2 := mem_of_mem_dropWhile _ _ _ h
  rw [List.mem_reverse] at h2
  exact mem_of_mem_dropWhile _ _ _ h2

/-- A sanitized text field is single-line: no LF or CR survives. -/
theorem sanitizeText_chars (s : String) : ∀ c ∈ (sanitizeText s).data, c ≠ '\n' ∧ c ≠ '\r' := by
  intro c hc
  unfold sanitizeText jsTrim at hc
  have h2 := mem_of_mem_trimChars _ _ hc
  exact collapseNewlines_chars _ c h2

/-- Quote doubling is the identity on quote-free character lists. -/
theorem doubleQuotes_of_no_quote : ∀ (l : List Char), (∀ c ∈ l, c ≠ '"') → doubleQuotes l = l := by
  intro l
  induction l with
  | nil => intro; rfl
  | cons a l ih =>
    intro h
    rw [doubleQuotes]
    rw [if_neg (h a (List.mem_cons_self a l))]
    rw [ih (fun c hc => h c (List.mem_cons_of_mem a hc))]

/-- C7 counterexample: the user field of a CSV row is escaped but its
newlines are NOT collapsed (sanitizeText runs on the text field only), so
the claimed every-field rendering — collapse newlines, double quotes, wrap
when special — disagrees with the produced cell on a username embedding a
newline. -/
theorem csv_field_render_cex :
    csvCellRows envCex "ch" [{ message := botMsgNl, replies := [] }] [] =
      ([["T", "ch", "\"a\nb\"", "x", "", "0"]], []) ∧
    claimFieldRender "a\nb" = "a b" ∧
    ("\"a\nb\"" : String) ≠ "a b" :=
  ⟨rfl, rfl, by decide⟩

/-- C7 amended: the text field alone is first newline-collapsed (CRLF, CR
and LF each become one space) and trimmed; then every field goes through
escapeCsv, which doubles embedded quotes and wraps the field in quotes
exactly when it contains a comma, quote, or line feed.  In particular the
claim's example text field renders as stated, and a sanitized text field
never retains a line break. -/
theorem csv_escaping_scheme :
    escapeCsv (sanitizeText "a,\"b\"\nc") = "\"a,\"\"b\"\" c\"" ∧
    (∀ s : String, ∀ c ∈ (sanitizeText s).data, c ≠ '\n' ∧ c ≠ '\r') ∧
    (∀ s : String, s.data.any csvSpecial = false → escapeCsv s = s) ∧
    (∀ s : String, s.data.any csvSpecial = true →
      escapeCsv s = "\"" ++ String.mk (doubleQuotes s.data) ++ "\"") := by
  refine ⟨by decide, sanitizeText_chars, ?_, ?_⟩
  · intro s h
    have hnq : ∀ c ∈ s.data, c ≠ '"' := by
      intro c hc hq
      have hall := List.any_eq_false.mp h c hc
      subst hq
      exact hall rfl
    simp only [escapeCsv, h, Bool.false_eq_true, if_false]
    rw [doubleQuotes_of_no_quote s.data hnq]
  · intro s h
    simp only [escapeCsv, h, if_true]

/-- Witness for C7's amended statement: an unremarkable field passes
through unchanged, and a comma-bearing field is wrapped and doubled. -/
theorem csv_escaping_scheme_witness :
    escapeCsv "abc" = "abc" ∧
    escapeCsv "a,b" = "\"" ++ String.mk (doubleQuotes "a,b".data) ++ "\"" :=
  ⟨csv_escaping_scheme.2.2.1 "abc" rfl,
   csv_escaping_scheme.2.2.2 "a,b" rfl⟩

/- ---------------------------------------------------------------------
   Date-window filtering (spec-modelled remote endpoint).
   --------------------------------------------------------------------- -/

/-- C6: with the remote history endpoint modelled from the spec as honouring
the [oldest, latest] window, a collection over a channel holding messages
at 100.0, 200.0 and 300.0 with a requested window of [150, 250] yields
exactly the message at 200.0 — messages outside the window do not appear
in the collected history. -/
theorem dateWindow_filtering :
    fetchHistory [historyEndpoint [m100, m200, m300]
        (some { num := 150, den := 1 }) (some { num := 250, den := 1 })] =
      some (Except.ok [m200]) := rfl

/- ---------------------------------------------------------------------
   Snapshot round-trips.
   --------------------------------------------------------------------- -/

/-- Folding Map.set over entries whose keys are fresh for the accumulator
(and mutually distinct) appends them in order. -/
theorem foldl_mapSet_fresh (l : List (String × String)) :
    ∀ (acc : Cache),
      (∀ p ∈ l, ∀ q ∈ acc, q.1 ≠ p.1) →
      (l.map Prod.fst).Nodup →
      l.foldl (fun m p => mapSet m p.1 p.2) acc = acc ++ l := by
  induction l with
  | nil => intro acc _ _; simp
  | cons p l ih =>
    intro acc hfresh hnodup
    simp only [List.foldl_cons]
    have hfind : acc.find? (fun q => q.1 == p.1) = none := by
      rw [List.find?_eq_none]
      intro q hq
      simpa using hfresh p (List.mem_cons_self p l) q hq
    have hset : mapSet acc p.1 p.2 = acc ++ [p] := by
      unfold mapSet
      rw [hfind]
      rfl
    rw [hset]
    rw [List.map_cons, List.nodup_cons] at hnodup
    rw [ih (acc ++ [p]) ?hfr hnodup.2]
    · rw [List.append_assoc]
      rfl
    case hfr =>
      intro p2 hp2 q hq
      rcases List.mem_append.mp hq with hq1 | hq2
      · exact hfresh p2 (List.mem_cons_of_mem _ hp2) q hq1
      · rw [List.mem_singleton] at hq2
        subst hq2
        intro heq
        exact hnodup.1 (heq ▸ List.mem_map_of_mem Prod.fst hp2)

/-- C8: writing a user snapshot and loading it back through the cached
branch of prefetchUsers (no remote call) reproduces, in the in-memory user
cache, exactly the mapping that was written; likewise the channel snapshot
reproduces the in-memory name-to-id mapping through the snapshot-loading
loop. -/
theorem snapshot_roundtrip (users channels : List (String × String)) (now : String)
    (hu : (users.map Prod.fst).Nodup) (hc : (channels.map Prod.fst).Nodup) :
    prefetchUsersCached [] (saveUserCacheToFile now users) = some users ∧
    (loadChannelSnapshotIntoMemory [] [] (saveChannelCacheToFile now channels)).map
      Prod.fst = some channels := by
  constructor
  · have hf := foldl_mapSet_fresh users [] (by intro p _ q hq; cases hq) hu
    simp [prefetchUsersCached, saveUserCacheToFile, loadUserCacheFromFile, hf]
  · have hf := foldl_mapSet_fresh channels [] (by intro p _ q hq; cases hq) hc
    simp [loadChannelSnapshotIntoMemory, saveChannelCacheToFile,
      loadChannelCacheFromFile, hf]

/-- Witness for C8 on concrete one-entry snapshots. -/
theorem snapshot_roundtrip_witness :
    prefetchUsersCached [] (saveUserCacheToFile "t" [("U1", "Alice")]) =
      some [("U1", "Alice")] ∧
    (loadChannelSnapshotIntoMemory [] [] (saveChannelCacheToFile "t"
      [("general", "C123")])).map Prod.fst = some [("general", "C123")] :=
  snapshot_roundtrip [("U1", "Alice")] [("general", "C123")] "t" (by decide) (by decide)

/- ---------------------------------------------------------------------
   All-or-nothing channel-index rebuild.
   --------------------------------------------------------------------- -/

/-- C9: when channel resolution falls through to the remote list fetch and
some page reports not-ok (after any run of ok, cursor-bearing pages), the
operation propagates the error and the durable channel snapshot is
returned untouched; and in every run, the snapshot differs from the input
only when the whole pagination succeeded — the rebuild is all-or-nothing. -/
theorem channel_rebuild_all_or_nothing
    (chRef now : String) (mem : Cache) (file : Option ChannelCacheFile)
    (good : List ChannelsListResponse) (bad : ChannelsListResponse)
    (rest : List ChannelsListResponse)
    (hroute1 : startsWithCG chRef = false)
    (hroute2 : truthyOpt (mapGet mem (stripHash chRef)) = none)
    (hroute3 : ∀ cf, file = some cf → truthyOpt (mapGet cf.channels (stripHash chRef)) = none)
    (hgood : ∀ r ∈ good, r.ok = true ∧
      cursorTruthy (r.response_metadata.bind ResponseMetadata.next_cursor) = true)
    (hbad : bad.ok = false) :
    resolveChannelId chRef now mem file (good ++ bad :: rest) =
      some (Except.error ("Failed to list channels: " ++ bad.error.getD "unknown_error"),
        file) ∧
    (∀ rs r f2, resolveChannelId chRef now mem file rs = some (r, f2) →
      f2 = file ∨ ∃ chans n, paginate "Failed to list channels: " (rs.map channelsPage) =
        some (Except.ok chans, n)) := by
  have hapi : ∀ rs : List ChannelsListResponse,
      resolveChannelId chRef now mem file rs =
        resolveChannelIdViaApi chRef (stripHash chRef) now (rs.map channelsPage) file := by
    intro rs
    unfold resolveChannelId loadChannelCacheFromFile
    simp only [hroute1, Bool.false_eq_true, if_false, hroute2]
    cases file with
    | none => rfl
    | some cf => simp only [hroute3 cf rfl]
  constructor
  · rw [hapi]
    unfold resolveChannelIdViaApi
    rw [List.map_append, List.map_cons]
    rw [paginate_error_of_bad "Failed to list channels: " (good.map channelsPage)
      (channelsPage bad) (rest.map channelsPage)
      (by intro p hp
          rcases List.mem_map.mp hp with ⟨r, hr, rfl⟩
          exact ⟨(hgood r hr).1, (hgood r hr).2⟩)
      hbad]
    rfl
  · intro rs r f2 h
    rw [hapi rs] at h
    unfold resolveChannelIdViaApi at h
    cases hp : paginate "Failed to list channels: " (rs.map channelsPage) with
    | none => rw [hp] at h; cases h
    | some resn =>
      rw [hp] at h
      rcases resn with ⟨res, n⟩
      cases res with
      | error e =>
        simp only at h
        left
        exact (congrArg Prod.snd (Option.some.inj h)).symm
      | ok pairs =>
        right
        exact ⟨pairs, n, rfl⟩

/-- Witness for C9: a single failing page aborts the resolution with the
file left as it was, and a succeeding run is covered by the second
conjunct. -/
theorem channel_rebuild_all_or_nothing_witness :
    resolveChannelId "general" "t" [] none ([] ++ chanPageBad :: []) =
      some (Except.error ("Failed to list channels: " ++ chanPageBad.error.getD "unknown_error"),
        none) ∧
    ((some { updatedAt := "t", channels := [("general", "C123")] } : Option ChannelCacheFile) =
        none ∨
      ∃ chans n, paginate "Failed to list channels: " ([chanPageOk].map channelsPage) =
        some (Except.ok chans, n)) := by
  have h := channel_rebuild_all_or_nothing "general" "t" [] none [] chanPageBad []
    rfl rfl (by intro cf hcf; cases hcf) (by intro r hr; cases hr) rfl
  refine ⟨h.1, ?_⟩
  exact h.2 [chanPageOk] (Except.ok "C123")
    (some { updatedAt := "t", channels := [("general", "C123")] }) rfl

/- ---------------------------------------------------------------------
   Author resolution without a user id.
   --------------------------------------------------------------------- -/

/-- C10: for a message without a truthy user id, author resolution makes no
remote call and leaves the user cache untouched; with a truthy bot id the
author is the message's truthy username when present, else "bot:" followed
by the bot id; with neither a truthy user id nor a truthy bot id the
author is the literal "unknown".  (resolveUserName is the single author
resolver shared by the CSV, YAML and Markdown renderers.) -/
theorem resolveUserName_no_user_id (env : RenderEnv) (cache : Cache) (m : SlackMessage)
    (hnouser : truthyOpt m.user = none) :
    (resolveUserName env cache m).2.1 = cache ∧
    (resolveUserName env cache m).2.2 = false ∧
    (∀ bid, truthyOpt m.bot_id = some bid → ∀ un, truthyOpt m.username = some un →
      (resolveUserName env cache m).1 = un) ∧
    (∀ bid, truthyOpt m.bot_id = some bid → truthyOpt m.username = none →
      (resolveUserName env cache m).1 = "bot:" ++ bid) ∧
    (truthyOpt m.bot_id = none → (resolveUserName env cache m).1 = "unknown") := by
  refine ⟨?_, ?_, ?_, ?_, ?_⟩
  · simp only [resolveUserName, hnouser]
    cases hb : truthyOpt m.bot_id <;> rfl
  · simp only [resolveUserName, hnouser]
    cases hb : truthyOpt m.bot_id <;> rfl
  · intro bid hbid un hun
    simp only [resolveUserName, hnouser, hbid, jsOrS, hun, Option.getD_some]
  · intro bid hbid hun
    simp only [resolveUserName, hnouser, hbid, jsOrS, hun, Option.getD_some]
  · intro hb
    simp only [resolveUserName, hnouser, hb]

/-- Witness for C10 on a concrete bot message. -/
theorem resolveUserName_no_user_id_witness :
    (resolveUserName envCex [] rootCex).2.1 = [] ∧
    (resolveUserName envCex [] rootCex).2.2 = false ∧
    (resolveUserName envCex [] rootCex).1 = "alice" := by
  have h := resolveUserName_no_user_id envCex [] rootCex rfl
  exact ⟨h.1, h.2.1, h.2.2.1 "B1" rfl "alice" rfl⟩
